import Mathlib

/-!
Shallow embedding of boot_universe.cpp (Quantum-Fruits repository).

The source is a single C++ file: a Sandbox class with no data members whose
methods are stubs (empty bodies or hardcoded returns), a stateless Observer
whose decode method has an empty body, and a driver boot_universe that
constructs a Sandbox, resets it, writes one bit, and then loops forever on
the (constantly true) isRunning guard, branching on getDensity against
PLANCK_LIMIT and feeding getRadiation to Observer::decode each iteration.

Doubles in the source only ever hold the exact literals 0.0 and 1.0 and are
never used in arithmetic, so real-valued parameters are embedded as
rationals. The infinite driver loop is embedded as a fuel-indexed run that
also records the trace of calls and their results.
-/

/-- The global constant SIGMA_P from the source ("das fundamentale Bit"),
value 1.0. -/
def SIGMA_P : ℚ := 1

/-- The global constant PLANCK_LIMIT from the source ("maximale
Schreibdichte"), value 1.0. -/
def PLANCK_LIMIT : ℚ := 1

/-- Modelled from the spec: CONST_8PI_G_C4 comes from the include
planck_units.h, which is not in the repository, and no source or spec text
gives its numeric value. Since the initializer ignores its argument, the
choice of value affects no observable behaviour; we fix it to 0. -/
def CONST_8PI_G_C4 : ℚ := 0

/-- Modelled from the spec: Bit is the opaque value type returned by
writeBit, declared in the missing include shannon_logic.h; the source
constructs it as Bit(1), so it is modelled as a wrapper around an integer
tag. -/
structure Bit where
  val : Int
  deriving DecidableEq

/-- The Sandbox class of the source. It declares no data members, so its
embedded state has no fields. -/
structure Sandbox where
  deriving DecidableEq

/-- Sandbox::initialize — a static factory; the volume_geometry argument is
ignored and a default-constructed Sandbox is returned. -/
def Sandbox.initialize (volume_geometry : ℚ) : Sandbox := {}

/-- Sandbox::clearToZero — empty body: the state is unchanged. -/
def Sandbox.clearToZero (s : Sandbox) : Sandbox := s

/-- Sandbox::writeBit — ignores its quantum argument, leaves the state
unchanged and returns Bit(1). -/
def Sandbox.writeBit (s : Sandbox) (quantum : ℚ) : Sandbox × Bit :=
  (s, Bit.mk 1)

/-- Sandbox::isRunning — returns true. -/
def Sandbox.isRunning (s : Sandbox) : Bool := true

/-- Sandbox::getDensity — returns 0.0. -/
def Sandbox.getDensity (s : Sandbox) : ℚ := 0

/-- Sandbox::executeBounce — empty body: the state is unchanged. -/
def Sandbox.executeBounce (s : Sandbox) : Sandbox := s

/-- Sandbox::expandEntropy — empty body: the state is unchanged. -/
def Sandbox.expandEntropy (s : Sandbox) : Sandbox := s

/-- Sandbox::getRadiation — returns the string literal "Hawking-Signal". -/
def Sandbox.getRadiation (s : Sandbox) : String := "Hawking-Signal"

/-- Observer::decode — generic over the signal type (auto parameter in the
source), empty body: no observable action. -/
def Observer.decode {α : Type} (signal : α) : Unit := ()

/-- One observable call made by the boot_universe driver, together with the
result the callee returned (for value-returning calls). -/
inductive Event where
  | initializeEv (arg : ℚ)
  | clearToZeroEv
  | writeBitEv (arg : ℚ) (result : Bit)
  | isRunningEv (result : Bool)
  | getDensityEv (result : ℚ)
  | executeBounceEv
  | expandEntropyEv
  | getRadiationEv (result : String)
  | decodeEv (signal : String)
  deriving DecidableEq

/-- The body of the driver's while loop: branch on getDensity against
PLANCK_LIMIT, then feed getRadiation to Observer::decode. Returns the new
state and the ordered trace of calls of this iteration (guard excluded). -/
def loopBody (s : Sandbox) : Sandbox × List Event :=
  if s.getDensity ≥ PLANCK_LIMIT then
    let s1 := s.executeBounce
    let sig := s1.getRadiation
    (s1, [Event.getDensityEv s.getDensity, Event.executeBounceEv,
          Event.getRadiationEv sig, Event.decodeEv sig])
  else
    let s1 := s.expandEntropy
    let sig := s1.getRadiation
    (s1, [Event.getDensityEv s.getDensity, Event.expandEntropyEv,
          Event.getRadiationEv sig, Event.decodeEv sig])

/-- Fuel-indexed run of the driver's while loop: each step first checks the
isRunning guard (recorded in the trace); if the guard is false the loop
exits, otherwise the body runs and the loop continues with one unit of fuel
less. -/
def loopRun : Sandbox → Nat → Sandbox × List Event
  | s, 0 => (s, [])
  | s, Nat.succ n =>
    if s.isRunning then
      let p := loopBody s
      let q := loopRun p.1 n
      (q.1, Event.isRunningEv s.isRunning :: p.2 ++ q.2)
    else
      (s, [Event.isRunningEv s.isRunning])

/-- The boot_universe driver: initialize with CONST_8PI_G_C4, clearToZero,
writeBit(SIGMA_P), then the while loop, run with the given fuel. -/
def boot_universe (fuel : Nat) : Sandbox × List Event :=
  let s0 := Sandbox.initialize CONST_8PI_G_C4
  let s1 := s0.clearToZero
  let wb := s1.writeBit SIGMA_P
  let lr := loopRun wb.1 fuel
  (lr.1, Event.initializeEv CONST_8PI_G_C4 :: Event.clearToZeroEv ::
    Event.writeBitEv SIGMA_P wb.2 :: lr.2)

/-- Termination of the driver loop, for the fuel-indexed run: some fuel
bound reaches a state in which the isRunning guard is false. -/
def loopTerminates (s : Sandbox) : Prop :=
  ∃ n : Nat, ((loopRun s n).1).isRunning = false

/-- One operation of the program, for reasoning about arbitrary call
histories on a Sandbox (decode included, applied to a string signal as in
the driver). -/
inductive Op where
  | initializeOp (x : ℚ)
  | clearToZeroOp
  | writeBitOp (q : ℚ)
  | isRunningOp
  | getDensityOp
  | executeBounceOp
  | expandEntropyOp
  | getRadiationOp
  | decodeOp (sig : String)
  deriving DecidableEq

/-- The result value of one operation. -/
inductive OpResult where
  | unitRes
  | sandboxRes (t : Sandbox)
  | bitRes (b : Bit)
  | boolRes (b : Bool)
  | ratRes (q : ℚ)
  | signalRes (sig : String)
  deriving DecidableEq

/-- Run one operation on a Sandbox state. Fallibility is represented by
Option: none would mean the operation signals an error. No operation body in
the source contains any failing construct, so every case is some. -/
def runOp (s : Sandbox) : Op → Option (Sandbox × OpResult)
  | Op.initializeOp x => some ( Sandbox.initialize x, OpResult.sandboxRes ( Sandbox.initialize x))
  | Op.clearToZeroOp => some (s.clearToZero, OpResult.unitRes)
  | Op.writeBitOp q => some ((s.writeBit q).1, OpResult.bitRes (s.writeBit q).2)
  | Op.isRunningOp => some (s, OpResult.boolRes s.isRunning)
  | Op.getDensityOp => some (s, OpResult.ratRes s.getDensity)
  | Op.executeBounceOp => some (s.executeBounce, OpResult.unitRes)
  | Op.expandEntropyOp => some (s.expandEntropy, OpResult.unitRes)
  | Op.getRadiationOp => some (s, OpResult.signalRes s.getRadiation)
  | Op.decodeOp sig =>
    let u := Observer.decode sig
    some (s, OpResult.unitRes)

/-- Run a sequence of operations on a Sandbox state, threading the state and
propagating any error. -/
def runOps : Sandbox → List Op → Option Sandbox
  | s, [] => some s
  | s, op :: rest =>
    match runOp s op with
    | some (t, _) => runOps t rest
    | none => none

/-- Any two Sandbox states are equal: the class has no data members. -/
theorem sandbox_eq (s t : Sandbox) : s = t := rfl

/-- The guard of the driver loop branch is false in every state, so the body
always takes the expandEntropy branch. -/
theorem loopBody_expand (s : Sandbox) :
    loopBody s = (s.expandEntropy,
      [Event.getDensityEv 0, Event.expandEntropyEv,
       Event.getRadiationEv "Hawking-Signal", Event.decodeEv "Hawking-Signal"]) := by
  cases s
  decide

theorem loopRun_zero (s : Sandbox) : loopRun s 0 = (s, []) := rfl

theorem loopRun_succ (s : Sandbox) (n : Nat) :
    loopRun s (n + 1) =
      (((loopRun (loopBody s).1 n).1),
        Event.isRunningEv true :: (loopBody s).2 ++ (loopRun (loopBody s).1 n).2) := by
  simp [loopRun, Sandbox.isRunning]

/-- The first state component of a loop run: the state never changes. -/
theorem loopRun_state (s : Sandbox) (n : Nat) : (loopRun s n).1 = s := by
  cases (loopRun s n).1
  cases s
  rfl

/-- Claim C1: isRunning returns true in every Sandbox state (in particular in
every state reachable after initialization and any operations or driver-loop
iterations), no fuel-indexed run of the driver loop ever reaches a false
guard, and the driver trace never records a false guard check: the loop
never terminates. -/
theorem C1_isRunning_always_true_loop_never_terminates :
    (∀ s : Sandbox, s.isRunning = true) ∧
    (∀ s : Sandbox, ¬ loopTerminates s) ∧
    (∀ fuel : Nat, Event.isRunningEv false ∉ (boot_universe fuel).2) := by
  refine ⟨fun s => rfl, fun s h => ?_, fun fuel => ?_⟩
  · obtain ⟨n, hn⟩ := h
    rw [show Sandbox.isRunning (loopRun s n).1 = true from rfl] at hn
    exact Bool.noConfusion hn
  · show Event.isRunningEv false ∉ (boot_universe fuel).2
    have key : ∀ (n : Nat) (s : Sandbox), Event.isRunningEv false ∉ (loopRun s n).2 := by
      intro n
      induction n with
      | zero => intro s; simp [loopRun_zero]
      | succ k ih =>
        intro s
        rw [loopRun_succ, loopBody_expand]
        simp only [List.cons_append, List.nil_append, List.mem_cons]
        rintro (h | h | h | h | h | h)
        · exact absurd h (by decide)
        · exact absurd h (by decide)
        · exact absurd h (by decide)
        · exact absurd h (by decide)
        · exact absurd h (by decide)
        · exact ih _ h
    simp only [boot_universe, List.mem_cons]
    rintro (h | h | h | h)
    · exact Event.noConfusion h
    · exact Event.noConfusion h
    · exact Event.noConfusion h
    · exact key fuel _ h

/-- Claim C2: in every state the branch guard getDensity >= PLANCK_LIMIT is
false; consequently no fuel-indexed run of the driver loop ever records an
executeBounce call, and every iteration records exactly one expandEntropy
call (the expandEntropy count of an n-iteration trace is n). -/
theorem C2_expand_always_bounce_never :
    (∀ s : Sandbox, ¬ s.getDensity ≥ PLANCK_LIMIT) ∧
    (∀ (s : Sandbox) (n : Nat),
      Event.executeBounceEv ∉ (loopRun s n).2 ∧
      (loopRun s n).2.count Event.expandEntropyEv = n) := by
  constructor
  · intro s
    cases s
    decide
  · intro s n
    induction n generalizing s with
    | zero => simp [loopRun_zero]
    | succ k ih =>
      obtain ⟨ihmem, ihcount⟩ := ih s.expandEntropy
      rw [loopRun_succ, loopBody_expand]
      constructor
      · simp only [List.cons_append, List.nil_append, List.mem_cons]
        rintro (h | h | h | h | h | h)
        · exact absurd h (by decide)
        · exact absurd h (by decide)
        · exact absurd h (by decide)
        · exact absurd h (by decide)
        · exact absurd h (by decide)
        · exact ihmem h
      · simp [List.count_cons, List.count_append, ihcount, beq_iff_eq]

/-- Claim C3: getDensity returns 0 in every state: immediately after the
factory call, after any writeBit call, and in fact on every Sandbox value
whatsoever (any prior operation sequence included, since operations do not
change the state). -/
theorem C3_getDensity_always_zero :
    ∀ (s : Sandbox) (x q : ℚ),
      ( Sandbox.initialize x).getDensity = 0 ∧
      ((s.writeBit q).1).getDensity = 0 ∧
      s.getDensity = 0 :=
  fun _ _ _ => ⟨rfl, rfl, rfl⟩

/-- Claim C4: getRadiation returns the fixed label "Hawking-Signal" in every
state, and Observer::decode applied to this value (or to any signal at all)
performs no observable action and never fails: it is a total function
returning the unit value. -/
theorem C4_radiation_fixed_decode_accepts :
    ∀ (s : Sandbox) (sig : String),
      s.getRadiation = "Hawking-Signal" ∧
      Observer.decode s.getRadiation = () ∧
      Observer.decode sig = () :=
  fun _ _ => ⟨rfl, rfl, rfl⟩

/-- Claim C5: the end-to-end scenario — the driver run with exactly one loop
iteration of fuel produces, without any error, exactly the call sequence
initialize(CONST_8PI_G_C4), clearToZero, writeBit(SIGMA_P = 1.0) returning
Bit(1), isRunning returning true, getDensity returning 0.0, expandEntropy,
getRadiation returning "Hawking-Signal", decode. -/
theorem C5_end_to_end_trace :
    (boot_universe 1).2 =
      [Event.initializeEv CONST_8PI_G_C4, Event.clearToZeroEv,
       Event.writeBitEv SIGMA_P (Bit.mk 1), Event.isRunningEv true,
       Event.getDensityEv 0, Event.expandEntropyEv,
       Event.getRadiationEv "Hawking-Signal", Event.decodeEv "Hawking-Signal"] := by
  decide

/-- Claim C6: writeBit succeeds on every argument and always returns the
fixed value Bit(1), independent of the argument and of the state it is
called on. -/
theorem C6_writeBit_fixed_result :
    ∀ (s t : Sandbox) (q r : ℚ),
      (s.writeBit q).2 = Bit.mk 1 ∧
      (s.writeBit q).2 = (t.writeBit r).2 :=
  fun _ _ _ _ => ⟨rfl, rfl⟩

/-- Claim C7: the factory succeeds on every rational argument and its result
is independent of the argument: any two initializations yield equal (hence
indistinguishable) Sandbox instances. -/
theorem C7_initialize_ignores_argument :
    ∀ x y : ℚ, Sandbox.initialize x = Sandbox.initialize y :=
  fun _ _ => rfl

/-- Claim C8: every operation of Sandbox and Observer is total: run on any
state with any argument it produces a result (never the error outcome none
of the Option-valued semantics). -/
theorem C8_all_operations_total :
    ∀ (s : Sandbox) (op : Op), (runOp s op).isSome = true := by
  intro s op
  cases op <;> rfl

/-- Claim C9: no operation changes the Sandbox state: any sequence of
operations run on a state s terminates in s itself, and the observations
getDensity, isRunning and getRadiation on any state (hence on the state
after any call history, which equals a freshly initialized instance) are
0, true and "Hawking-Signal". -/
theorem C9_sandbox_state_immutable :
    ∀ (s : Sandbox) (ops : List Op),
      runOps s ops = some s ∧
      s.getDensity = 0 ∧ s.isRunning = true ∧ s.getRadiation = "Hawking-Signal" := by
  intro s ops
  refine ⟨?_, rfl, rfl, rfl⟩
  induction ops generalizing s with
  | nil => rfl
  | cons op rest ih =>
    cases op <;> exact ih _

/-- Claim C10: every operation is deterministic: run twice on equal states
with equal operation arguments, it produces equal results and equal final
states. -/
theorem C10_operations_deterministic :
    ∀ (s t : Sandbox) (op1 op2 : Op),
      s = t → op1 = op2 → runOp s op1 = runOp t op2 := by
  intro s t op1 op2 hs ho
  rw [hs, ho]

/-- Witness for C10 at concrete inputs: two separately initialized sandboxes
(with different factory arguments) are equal states, and running isRunning
on both gives equal outcomes. -/
theorem C10_witness :
    runOp ( Sandbox.initialize 0) Op.isRunningOp =
      runOp ( Sandbox.initialize 5) Op.isRunningOp :=
  C10_operations_deterministic ( Sandbox.initialize 0) ( Sandbox.initialize 5)
    Op.isRunningOp Op.isRunningOp rfl rfl
